import Mathlib

/-!
# Verification of the stagehop-backend event/venue API

Shallow embedding of `src/main.py` and `src/models.py`:

* Timestamps (Python `datetime`, microsecond resolution) are modelled as `Nat`
  microseconds since 0001-01-01 00:00:00; comparison of datetimes is then `Nat`
  comparison, `datetime.combine(day, time.min)` is `day * usPerDay`, and
  `datetime.max.time()` adds `usPerDay - 1`.
* Nullable columns are `Option`; an SQL comparison with `NULL` yields `NULL`
  and the row is filtered out, so the embedded filter predicates return
  `false` on `none`.
* The database visible to a handler is a `List Event` (each event optionally
  carrying its joined `Venue` row); `query(Event).join(Event.venue)` keeps the
  events whose venue is present, in storage order.

`models.py` declares the `Venue` columns `id`, `name`, `lat`, `lon` (and the
`events` relationship) — it does **not** declare `logo`, although `main.py`
reads `v.logo` / `e.venue.logo` and the spec's data model lists an optional
logo reference. The structure `Venue` below carries the `logo` field that
`main.py`'s code and docstrings assume; the attribute set actually declared
by `models.py` is embedded separately (`venueDeclaredAttrs`), together with
Python's attribute-lookup failure (`pyGetattr`), and the versions of the
handlers that check every attribute read against `models.py`
(`to_geojsonChecked`, `get_venues`) return `Except` and are used to settle
the claims about the readability of `logo`.
-/

namespace Stagehop

/-- Microseconds per day: `datetime` arithmetic is exact in microseconds. -/
def usPerDay : Nat := 86400000000

/-- Proleptic-Gregorian calendar date of day number `n`, where day `0` is
0001-01-01 (Python's `date.toordinal() = n + 1`). Returns `(year, month, day)`. -/
def civilFromDays (n : Nat) : Nat × Nat × Nat :=
  let z := n + 306
  let era := z / 146097
  let doe := z % 146097
  let yoe := (doe - doe / 1460 + doe / 36524 - doe / 146096) / 365
  let y := yoe + era * 400
  let doy := doe - (365 * yoe + yoe / 4 - yoe / 100)
  let mp := (5 * doy + 2) / 153
  let d := doy - (153 * mp + 2) / 5 + 1
  let m := if mp < 10 then mp + 3 else mp - 9
  (if m ≤ 2 then y + 1 else y, m, d)

def pad2 (n : Nat) : String :=
  if n < 10 then "0" ++ toString n else toString n

def pad4 (n : Nat) : String :=
  if n < 10 then "000" ++ toString n
  else if n < 100 then "00" ++ toString n
  else if n < 1000 then "0" ++ toString n
  else toString n

def pad6 (n : Nat) : String :=
  String.mk (List.replicate (6 - (toString n).length) '0') ++ toString n

/-- Python's `datetime.isoformat()`: `YYYY-MM-DDTHH:MM:SS[.ffffff]`, the
fractional part present exactly when the microsecond field is nonzero. -/
def isoformat (t : Nat) : String :=
  let c := civilFromDays (t / usPerDay)
  let r := t % usPerDay
  let hh := r / 3600000000
  let mi := r % 3600000000 / 60000000
  let ss := r % 60000000 / 1000000
  let us := r % 1000000
  pad4 c.1 ++ "-" ++ pad2 c.2.1 ++ "-" ++ pad2 c.2.2 ++ "T" ++
    pad2 hh ++ ":" ++ pad2 mi ++ ":" ++ pad2 ss ++
    (if us = 0 then "" else "." ++ pad6 us)

/-- SQL `LIKE` pattern matching over characters, case-folded as `ILIKE`
does: `%` matches any sequence, `_` matches any single character, any other
pattern character matches itself up to case. Structurally recursive on a
fuel argument so that it evaluates by kernel reduction; every recursive
call shrinks `pat.length + s.length`, so `likeMatch` below always supplies
enough fuel and the out-of-fuel branch is unreachable. -/
def likeMatchF : Nat → List Char → List Char → Bool
  | 0, _, _ => false
  | fuel + 1, pat, s =>
    match pat, s with
    | [], [] => true
    | '%' :: ps, [] => likeMatchF fuel ps []
    | _ :: _, [] => false
    | [], _ :: _ => false
    | '%' :: ps, c :: ss =>
      likeMatchF fuel ps (c :: ss) || likeMatchF fuel ('%' :: ps) ss
    | '_' :: ps, _ :: ss => likeMatchF fuel ps ss
    | p :: ps, c :: ss => (p.toLower == c.toLower) && likeMatchF fuel ps ss

/-- `pat LIKE`-matches `s`, case-insensitively. -/
def likeMatch (pat s : List Char) : Bool :=
  likeMatchF (pat.length + s.length + 1) pat s

/-- Venue row as `main.py` manipulates it (`models.py` omits the `logo`
column this code reads; see `venueDeclaredAttrs`). `lat`/`lon` are nullable
`Float` columns, modelled as `Option ℚ`. -/
structure Venue where
  id : Int
  name : Option String
  lat : Option ℚ
  lon : Option ℚ
  logo : Option String
deriving DecidableEq, Repr

/-- Event row (`models.py`), with its `venue` relationship resolved:
`venue` is `none` when `venue_id` is `NULL` or dangling. -/
structure Event where
  id : Int
  show_name : Option String
  date : Option Nat
  link : Option String
  img : Option String
  venue : Option Venue
deriving DecidableEq, Repr

/-- `geometry` member of a GeoJSON Feature. -/
structure Geometry where
  type : String
  coordinates : List ℚ
deriving DecidableEq, Repr

/-- The nested `venue` object inside a Feature's properties. -/
structure FeatureVenue where
  id : Int
  name : Option String
  logo : Option String
deriving DecidableEq, Repr

/-- `properties` member of a GeoJSON Feature, as built by `to_geojson`. -/
structure FeatureProps where
  id : Int
  show_name : Option String
  date : Option String
  link : Option String
  img : Option String
  venue : FeatureVenue
deriving DecidableEq, Repr

structure Feature where
  type : String
  geometry : Geometry
  properties : FeatureProps
deriving DecidableEq, Repr

structure FeatureCollection where
  type : String
  features : List Feature
deriving DecidableEq, Repr

/-- The coordinate guard of `to_geojson`:
`e.venue and e.venue.lat is not None and e.venue.lon is not None`. -/
def hasCoords (e : Event) : Bool :=
  match e.venue with
  | some v => v.lat.isSome && v.lon.isSome
  | none => false

/-- The Feature `to_geojson` appends for one event, when the coordinate
guard passes (`main.py` lines 176–194). -/
def featureOf (e : Event) : Option Feature :=
  match e.venue with
  | none => none
  | some v =>
    match v.lat, v.lon with
    | some la, some lo =>
      some { type := "Feature"
             geometry := { type := "Point", coordinates := [lo, la] }
             properties :=
               { id := e.id
                 show_name := e.show_name
                 date := e.date.map isoformat
                 link := e.link
                 img := e.img
                 venue := { id := v.id, name := v.name, logo := v.logo } } }
    | _, _ => none

/-- `to_geojson` (`main.py`): start from `features := []` and append one
Feature per event passing the coordinate guard, in input order. -/
def to_geojson (events : List Event) : FeatureCollection :=
  { type := "FeatureCollection", features := events.filterMap featureOf }

/-- `db.query(Event).join(Event.venue)`: inner join keeps events whose
venue row is present, in storage order. -/
def joinVenue (db : List Event) : List Event :=
  db.filter (fun e => e.venue.isSome)

/-- One range fetch of `read_today_events`:
`query(Event).join(Event.venue).filter(Event.date >= lo, Event.date <= hi).all()`.
A `NULL` date fails both comparisons. -/
def fetchRange (db : List Event) (lo hi : Nat) : List Event :=
  (joinVenue db).filter (fun e =>
    match e.date with
    | some d => decide (lo ≤ d) && decide (d ≤ hi)
    | none => false)

/-- The event list `read_today_events` projects (`main.py` lines 48–70):
fetch today's interval `[start, start + (usPerDay - 1)]`
(`datetime.max.time()` is 23:59:59.999999); if the result is empty, fetch
once more with the end widened to `start + 3 days`, and return that second
result unconditionally. `today` is the server-local day number. -/
def read_today_query (db : List Event) (today : Nat) : List Event :=
  let start := today * usPerDay
  let endT := start + (usPerDay - 1)
  let events := fetchRange db start endT
  if events.isEmpty then fetchRange db start (start + 3 * usPerDay)
  else events

/-- `read_today_events` handler: the fetched (possibly fallback) list,
projected to GeoJSON. -/
def read_today_events (db : List Event) (today : Nat) : FeatureCollection :=
  to_geojson (read_today_query db today)

/-- `Event.date >= date_from` filter condition (false on `NULL` date). -/
def dateFromMatch (df : Nat) (e : Event) : Bool :=
  match e.date with
  | some d => decide (df ≤ d)
  | none => false

/-- `Event.date <= date_to` filter condition (false on `NULL` date). -/
def dateToMatch (dt : Nat) (e : Event) : Bool :=
  match e.date with
  | some d => decide (d ≤ dt)
  | none => false

/-- `Venue.name.ilike(f'%{venue_name}%')` condition: the parameter is pasted
unescaped between two `%` wildcards; `NULL` name fails. -/
def venueNameMatch (vn : String) (e : Event) : Bool :=
  match e.venue with
  | some v =>
    match v.name with
    | some n => likeMatch ("%" ++ vn ++ "%").data n.data
    | none => false
  | none => false

/-- `main.py` lines 106–108: if `date_from` is provided and `date_to` is
not, `date_to` defaults to `datetime.combine(date_from.date(),
datetime.max.time())` — the last microsecond of `date_from`'s day. -/
def effectiveDateTo (df dt : Option Nat) : Option Nat :=
  match df, dt with
  | some x, none => some (x / usPerDay * usPerDay + (usPerDay - 1))
  | _, dt => dt

/-- The filtered query of `read_filtered_events` before pagination
(`main.py` lines 98–112): join, then conditionally chained filters. A
`datetime` is always truthy in Python, so `if date_from:` / `if date_to:`
test only for `None`, while `if venue_name:` also skips the empty string. -/
def filteredQuery (db : List Event) (date_from date_to : Option Nat)
    (venue_name : Option String) : List Event :=
  let q := joinVenue db
  let q := match date_from with
    | some df => q.filter (dateFromMatch df)
    | none => q
  let q := match effectiveDateTo date_from date_to with
    | some dt => q.filter (dateToMatch dt)
    | none => q
  match venue_name with
  | some vn => if vn = "" then q else q.filter (venueNameMatch vn)
  | none => q

/-- `read_filtered_events` handler (`main.py` lines 73–117):
`query.offset(offset).limit(limit).all()` projected to GeoJSON. FastAPI
validates `1 ≤ limit ≤ 20` and `0 ≤ offset` at the boundary. -/
def read_filtered_events (db : List Event) (date_from date_to : Option Nat)
    (venue_name : Option String) (limit offset : Nat) : FeatureCollection :=
  to_geojson (((filteredQuery db date_from date_to venue_name).drop offset).take limit)

/-- The attribute names an instance of the `Venue` mapped class actually
exposes, read off `models.py` lines 5–13: the declared columns `id`,
`name`, `lat`, `lon` and the `events` relationship. No `logo` is declared. -/
def venueDeclaredAttrs : List String := ["id", "name", "lat", "lon", "events"]

/-- Python attribute lookup: reading attribute `a` on an object exposing
`attrs` succeeds when declared and raises `AttributeError` otherwise. -/
def pyGetattr (attrs : List String) (a : String) : Except String Unit :=
  if a ∈ attrs then .ok () else .error ("AttributeError: " ++ a)

/-- One iteration of `to_geojson`'s loop with every venue attribute read
checked against `models.py`'s declared attribute set: the coordinate guard
reads `lat`/`lon` (declared), and building the properties reads
`e.venue.logo` (not declared). -/
def featureChecked (e : Event) : Except String (Option Feature) :=
  match e.venue with
  | none => .ok none
  | some v =>
    match v.lat, v.lon with
    | some _, some _ =>
      match pyGetattr venueDeclaredAttrs "logo" with
      | .ok _ => .ok (featureOf e)
      | .error m => .error m
    | _, _ => .ok none

/-- `to_geojson` run against rows of the `Venue` class `models.py` actually
declares: the first event passing the coordinate guard makes the
`e.venue.logo` read raise, aborting the handler. -/
def to_geojsonChecked (events : List Event) : Except String FeatureCollection := do
  let feats ← events.foldlM (fun acc e => do
    match (← featureChecked e) with
    | some f => pure (acc ++ [f])
    | none => pure acc) ([] : List Feature)
  pure { type := "FeatureCollection", features := feats }

/-- Flat venue record of the `/venues` response
(`{'id': …, 'name': …, 'lat': …, 'lon': …, 'logo': …}`). -/
structure VenueOut where
  id : Int
  name : Option String
  lat : Option ℚ
  lon : Option ℚ
  logo : Option String
deriving DecidableEq, Repr

/-- `get_venues` handler (`main.py` lines 120–142): one flat record per
stored venue, each built by reading `v.id`, `v.name`, `v.lat`, `v.lon`,
`v.logo` — the last read checked against `models.py`'s declared
attributes. -/
def get_venues (venues : List Venue) : Except String (List VenueOut) :=
  venues.mapM (fun v =>
    match pyGetattr venueDeclaredAttrs "logo" with
    | .ok _ => .ok { id := v.id, name := v.name, lat := v.lat, lon := v.lon, logo := v.logo }
    | .error m => .error m)

/-- Does the first list start the second? -/
def charsLeadMatch : List Char → List Char → Bool
  | [], _ => true
  | _ :: _, [] => false
  | a :: as, b :: bs => (a == b) && charsLeadMatch as bs

/-- Contiguous-sublist test on characters. -/
def charsInfixOf (sub : List Char) : List Char → Bool
  | [] => sub.isEmpty
  | c :: cs => charsLeadMatch sub (c :: cs) || charsInfixOf sub cs

/-- Case-insensitive substring test, used only to state what the spec's
words predict for the venue-name filter. -/
def substrCI (sub s : String) : Bool :=
  charsInfixOf (sub.data.map Char.toLower) (s.data.map Char.toLower)

/-- Modelled from the spec: the pre-pagination matching set claim C4
predicts — the intersection of the individual filters exactly as the claim
words them: `date >= date_from` when given, `date <= date_to` when given
(no derived bound when `date_to` is omitted), and a plain case-insensitive
substring match on the venue name when given. For comparison with
`filteredQuery` only. -/
def specC4MatchSet (db : List Event) (date_from date_to : Option Nat)
    (venue_name : Option String) : List Event :=
  (joinVenue db).filter (fun e =>
    (date_from.all (fun df => dateFromMatch df e)) &&
    (date_to.all (fun dt => dateToMatch dt e)) &&
    (venue_name.all (fun vn =>
      match e.venue with
      | some v =>
        match v.name with
        | some n => substrCI vn n
        | none => false
      | none => false)))

/-! ## Helper lemmas -/

theorem featureOf_isSome (e : Event) : (featureOf e).isSome = hasCoords e := by
  rcases e with ⟨i, s, d, l, g, v⟩
  cases v with
  | none => rfl
  | some v =>
    rcases v with ⟨vi, vn, la, lo, vl⟩
    cases la <;> cases lo <;> rfl

theorem filterMap_length_le (f : α → Option β) (l : List α) :
    (l.filterMap f).length ≤ l.length := by
  induction l with
  | nil => simp
  | cons a l ih => cases h : f a <;> simp [List.filterMap_cons, h] <;> omega

theorem filterMap_length_eq_iff (f : α → Option β) (l : List α) :
    (l.filterMap f).length = l.length ↔ ∀ a ∈ l, (f a).isSome := by
  induction l with
  | nil => simp
  | cons a l ih =>
    cases h : f a with
    | none =>
      simp only [List.filterMap_cons, h, List.mem_cons]
      constructor
      · intro hlen
        have := filterMap_length_le f l
        simp [List.length_cons] at hlen
        omega
      · intro hall
        have := hall a (Or.inl rfl)
        simp [h] at this
    | some b =>
      simp only [List.filterMap_cons, h, List.length_cons, List.mem_cons]
      constructor
      · intro hlen x hx
        rcases hx with rfl | hx
        · simp [h]
        · exact (ih.mp (by omega)) x hx
      · intro hall
        have := ih.mpr (fun x hx => hall x (Or.inr hx))
        omega

theorem mem_joinVenue {db : List Event} {e : Event} :
    e ∈ joinVenue db ↔ e ∈ db ∧ e.venue.isSome := by
  simp [joinVenue, List.mem_filter]

theorem mem_fetchRange {db : List Event} {lo hi : Nat} {e : Event} :
    e ∈ fetchRange db lo hi ↔
      e ∈ db ∧ e.venue.isSome ∧ ∃ d, e.date = some d ∧ lo ≤ d ∧ d ≤ hi := by
  unfold fetchRange
  rw [List.mem_filter, mem_joinVenue]
  cases h : e.date with
  | none => simp [h]
  | some d => simp [h, and_assoc]

theorem fetchRange_eq_filteredQuery (db : List Event) (lo hi : Nat) :
    fetchRange db lo hi = filteredQuery db (some lo) (some hi) none := by
  show fetchRange db lo hi =
    ((joinVenue db).filter (dateFromMatch lo)).filter (dateToMatch hi)
  unfold fetchRange
  rw [List.filter_filter]
  congr 1
  funext e
  cases h : e.date <;> simp [dateFromMatch, dateToMatch, h, Bool.and_comm]

theorem to_geojson_empty_of_coordless {evts : List Event}
    (h : ∀ e ∈ evts, ¬ hasCoords e) :
    to_geojson evts = { type := "FeatureCollection", features := [] } := by
  show ({ type := "FeatureCollection", features := evts.filterMap featureOf }
    : FeatureCollection) = _
  have : evts.filterMap featureOf = [] := by
    rw [List.filterMap_eq_nil_iff]
    intro e he
    have hc := h e he
    have hs := featureOf_isSome e
    cases hfe : featureOf e with
    | none => rfl
    | some f =>
      rw [hfe] at hs
      simp only [Option.isSome_some] at hs
      exact absurd hs.symm hc
  rw [this]

theorem to_geojson_ne_nil {evts : List Event} {e : Event}
    (he : e ∈ evts) (hc : hasCoords e) : (to_geojson evts).features ≠ [] := by
  intro hnil
  have : evts.filterMap featureOf = [] := hnil
  rw [List.filterMap_eq_nil_iff] at this
  have := this e he
  have hs := featureOf_isSome e
  rw [this, hc] at hs
  exact Bool.false_ne_true hs

theorem read_today_query_first {db : List Event} {today : Nat}
    (h : fetchRange db (today * usPerDay) (today * usPerDay + (usPerDay - 1)) ≠ []) :
    read_today_query db today =
      fetchRange db (today * usPerDay) (today * usPerDay + (usPerDay - 1)) := by
  show (if (fetchRange db (today * usPerDay)
        (today * usPerDay + (usPerDay - 1))).isEmpty
      then fetchRange db (today * usPerDay) (today * usPerDay + 3 * usPerDay)
      else fetchRange db (today * usPerDay) (today * usPerDay + (usPerDay - 1))) = _
  cases hfr : fetchRange db (today * usPerDay) (today * usPerDay + (usPerDay - 1)) with
  | nil => exact absurd hfr h
  | cons a t => simp

theorem read_today_query_fallback {db : List Event} {today : Nat}
    (h : fetchRange db (today * usPerDay) (today * usPerDay + (usPerDay - 1)) = []) :
    read_today_query db today =
      fetchRange db (today * usPerDay) (today * usPerDay + 3 * usPerDay) := by
  show (if (fetchRange db (today * usPerDay)
        (today * usPerDay + (usPerDay - 1))).isEmpty
      then fetchRange db (today * usPerDay) (today * usPerDay + 3 * usPerDay)
      else fetchRange db (today * usPerDay) (today * usPerDay + (usPerDay - 1))) = _
  rw [h]
  simp

/-! ## Concrete fixtures for witnesses and counterexamples -/

/-- A venue with both coordinates present. -/
def vClub : Venue :=
  { id := 1, name := some "The Club", lat := some 40, lon := some (-74),
    logo := some "club.png" }

/-- A venue with a `NULL` latitude. -/
def vNoLat : Venue :=
  { id := 2, name := some "Basement", lat := none, lon := some 3, logo := none }

/-- Event `n` days after day 0, at `ofs` microseconds into the day, at `v`. -/
def evAt (i : Int) (n ofs : Nat) (v : Venue) : Event :=
  { id := i, show_name := some "Show", date := some (n * usPerDay + ofs),
    link := none, img := none, venue := some v }

/-! ## Claims -/

/-- C1: for every event list handed to the Geo Projector, the output has
`type = "FeatureCollection"`, at most as many features as input events —
with equality exactly when every input event's venue has both coordinates —
and an empty or all-filtered input yields the empty FeatureCollection value
(never an error: `to_geojson` is total). -/
theorem geo_projector_feature_count (evts : List Event) :
    (to_geojson evts).features.length ≤ evts.length ∧
    ((to_geojson evts).features.length = evts.length ↔ ∀ e ∈ evts, hasCoords e) ∧
    (to_geojson evts).type = "FeatureCollection" ∧
    to_geojson ([] : List Event) = { type := "FeatureCollection", features := [] } ∧
    ((∀ e ∈ evts, ¬ hasCoords e) →
      to_geojson evts = { type := "FeatureCollection", features := [] }) := by
  refine ⟨filterMap_length_le featureOf evts, ?_, rfl, rfl, ?_⟩
  · show (evts.filterMap featureOf).length = evts.length ↔ _
    rw [filterMap_length_eq_iff]
    constructor
    · intro h e he
      have := h e he
      rwa [featureOf_isSome] at this
    · intro h e he
      rw [featureOf_isSome]
      exact h e he
  · exact to_geojson_empty_of_coordless

/-- Witness for C1 at a two-event list: one event passes the coordinate
guard, one fails, so exactly one feature is emitted and equality fails. -/
theorem geo_projector_feature_count_witness :
    (to_geojson [evAt 10 5 0 vClub, evAt 11 5 0 vNoLat]).features.length ≤ 2 ∧
    ¬ (to_geojson [evAt 10 5 0 vClub, evAt 11 5 0 vNoLat]).features.length = 2 := by
  refine ⟨(geo_projector_feature_count [evAt 10 5 0 vClub, evAt 11 5 0 vNoLat]).1, ?_⟩
  intro h
  have := (geo_projector_feature_count [evAt 10 5 0 vClub, evAt 11 5 0 vNoLat]).2.1.mp h
    (evAt 11 5 0 vNoLat) (by decide)
  revert this
  decide

/-- C2: every Feature the projector emits has `geometry.type = "Point"` and
coordinates `[venue.lon, venue.lat]` (longitude first) for the venue of the
input event it came from. -/
theorem geo_projector_coordinate_order (evts : List Event) (f : Feature)
    (hf : f ∈ (to_geojson evts).features) :
    f.geometry.type = "Point" ∧
    ∃ e ∈ evts, ∃ v, e.venue = some v ∧ ∃ la lo, v.lat = some la ∧
      v.lon = some lo ∧ f.geometry.coordinates = [lo, la] := by
  have hf' : f ∈ evts.filterMap featureOf := hf
  rw [List.mem_filterMap] at hf'
  obtain ⟨e, he, hfe⟩ := hf'
  rcases e with ⟨i, s, d, l, g, v⟩
  cases v with
  | none => simp [featureOf] at hfe
  | some v =>
    rcases v with ⟨vi, vn, la, lo, vl⟩
    cases la with
    | none => simp [featureOf] at hfe
    | some la =>
      cases lo with
      | none => simp [featureOf] at hfe
      | some lo =>
        simp only [featureOf, Option.some.injEq] at hfe
        subst hfe
        exact ⟨rfl, _, he, _, rfl, la, lo, rfl, rfl, rfl⟩

/-- Witness for C2 at a singleton list whose one feature is written out
explicitly. -/
theorem geo_projector_coordinate_order_witness :
    ({ type := "Feature"
       geometry := { type := "Point", coordinates := [-74, 40] }
       properties :=
         { id := 10, show_name := some "Show"
           date := some "0001-01-06T00:00:00"
           link := none, img := none
           venue := { id := 1, name := some "The Club", logo := some "club.png" } } }
      : Feature).geometry.type = "Point" ∧
    ∃ e ∈ [evAt 10 5 0 vClub], ∃ v, e.venue = some v ∧ ∃ la lo, v.lat = some la ∧
      v.lon = some lo ∧
      ({ type := "Feature"
         geometry := { type := "Point", coordinates := [-74, 40] }
         properties :=
           { id := 10, show_name := some "Show"
             date := some "0001-01-06T00:00:00"
             link := none, img := none
             venue := { id := 1, name := some "The Club", logo := some "club.png" } } }
        : Feature).geometry.coordinates = [lo, la] :=
  geo_projector_coordinate_order [evAt 10 5 0 vClub] _ (by decide)

/-- C5: the today operation first fetches all joined events with date in
`[start-of-today, end-of-today]`; exactly when that list is empty it
refetches once with the end widened to `start + 3 days` inclusive and
returns that second fetch as is (no further widening); every fetch returns
each matching event — no limit or pagination. -/
theorem read_today_fallback_policy (db : List Event) (today : Nat) :
    (fetchRange db (today * usPerDay) (today * usPerDay + (usPerDay - 1)) ≠ [] →
      read_today_query db today =
        fetchRange db (today * usPerDay) (today * usPerDay + (usPerDay - 1))) ∧
    (fetchRange db (today * usPerDay) (today * usPerDay + (usPerDay - 1)) = [] →
      read_today_query db today =
        fetchRange db (today * usPerDay) (today * usPerDay + 3 * usPerDay)) ∧
    (∀ lo hi : Nat, ∀ e : Event, e ∈ fetchRange db lo hi ↔
      e ∈ db ∧ e.venue.isSome ∧ ∃ d, e.date = some d ∧ lo ≤ d ∧ d ≤ hi) :=
  ⟨read_today_query_first, read_today_query_fallback,
    fun _ _ _ => mem_fetchRange⟩

/-- Witness for C5: one event today makes the first fetch nonempty and the
result is that fetch; with the event three days out the first fetch is
empty and the result is the widened fetch. -/
theorem read_today_fallback_policy_witness :
    read_today_query [evAt 10 0 3600000000 vClub] 0 =
      fetchRange [evAt 10 0 3600000000 vClub] 0 (usPerDay - 1) ∧
    read_today_query [evAt 10 2 0 vClub] 0 =
      fetchRange [evAt 10 2 0 vClub] 0 (3 * usPerDay) := by
  constructor
  · have := (read_today_fallback_policy [evAt 10 0 3600000000 vClub] 0).1 (by decide)
    simpa using this
  · have := (read_today_fallback_policy [evAt 10 2 0 vClub] 0).2.1 (by decide)
    simpa using this

/-- C9: when the first (today) fetch is nonempty but none of its events
passes the coordinate guard, the result is still that first fetch — the
fallback is keyed on the emptiness of the database result, not of the
projected features — and the handler returns the empty FeatureCollection. -/
theorem read_today_no_fallback_for_coordless (db : List Event) (today : Nat)
    (h1 : fetchRange db (today * usPerDay) (today * usPerDay + (usPerDay - 1)) ≠ [])
    (h2 : ∀ e ∈ fetchRange db (today * usPerDay) (today * usPerDay + (usPerDay - 1)),
      ¬ hasCoords e) :
    read_today_query db today =
      fetchRange db (today * usPerDay) (today * usPerDay + (usPerDay - 1)) ∧
    read_today_events db today = { type := "FeatureCollection", features := [] } := by
  have hq := read_today_query_first h1
  refine ⟨hq, ?_⟩
  show to_geojson (read_today_query db today) = _
  rw [hq]
  exact to_geojson_empty_of_coordless h2

/-- Witness for C9: one event today at a venue with `NULL` latitude. -/
theorem read_today_no_fallback_for_coordless_witness :
    read_today_events [evAt 20 0 3600000000 vNoLat] 0 =
      { type := "FeatureCollection", features := [] } :=
  (read_today_no_fallback_for_coordless [evAt 20 0 3600000000 vNoLat] 0
    (by decide) (by decide)).2

/-- C7: the filtered-events operation returns the slice of the filtered
query starting at index `offset` of length `min limit (total - offset)`
(`Nat` subtraction is the truncated `max 0` form), and the handler projects
exactly that slice. -/
theorem read_filtered_pagination (db : List Event) (df dt : Option Nat)
    (vn : Option String) (L O : Nat) :
    (((filteredQuery db df dt vn).drop O).take L).length
      = min L ((filteredQuery db df dt vn).length - O) ∧
    (∀ i, i < (((filteredQuery db df dt vn).drop O).take L).length →
      (((filteredQuery db df dt vn).drop O).take L)[i]?
        = (filteredQuery db df dt vn)[O + i]?) ∧
    read_filtered_events db df dt vn L O
      = to_geojson (((filteredQuery db df dt vn).drop O).take L) := by
  refine ⟨?_, ?_, rfl⟩
  · rw [List.length_take, List.length_drop]
  · intro i hi
    rw [List.length_take] at hi
    have hiL : i < L := lt_of_lt_of_le hi (min_le_left _ _)
    rw [List.getElem?_take_of_lt hiL, List.getElem?_drop]

/-- Witness for C7 with three matching events, `limit = 2`, `offset = 1`:
the result has length `min 2 (3 - 1) = 2` and starts at index 1. -/
theorem read_filtered_pagination_witness :
    (((filteredQuery [evAt 1 1 0 vClub, evAt 2 1 1 vClub, evAt 3 1 2 vClub]
        none none none).drop 1).take 2).length
      = min 2 ((filteredQuery [evAt 1 1 0 vClub, evAt 2 1 1 vClub, evAt 3 1 2 vClub]
        none none none).length - 1) ∧
    (((filteredQuery [evAt 1 1 0 vClub, evAt 2 1 1 vClub, evAt 3 1 2 vClub]
        none none none).drop 1).take 2)[0]?
      = (filteredQuery [evAt 1 1 0 vClub, evAt 2 1 1 vClub, evAt 3 1 2 vClub]
        none none none)[1 + 0]? := by
  refine ⟨(read_filtered_pagination _ none none none 2 1).1, ?_⟩
  exact (read_filtered_pagination _ none none none 2 1).2.1 0 (by decide)

/-- C10: passing `venue_name` as the empty string leaves the query exactly
as if `venue_name` were omitted — Python's `if venue_name:` is false for
`''` — both before pagination and on the handler output. -/
theorem venue_name_empty_means_no_filter (db : List Event)
    (df dt : Option Nat) (L O : Nat) :
    filteredQuery db df dt (some "") = filteredQuery db df dt none ∧
    read_filtered_events db df dt (some "") L O
      = read_filtered_events db df dt none L O :=
  ⟨rfl, rfl⟩

/-- Witness for C10: an event whose venue has a `NULL` name is not
excluded when `venue_name` is the empty string. -/
theorem venue_name_empty_means_no_filter_witness :
    filteredQuery
      [{ id := 7, show_name := none, date := some usPerDay, link := none,
         img := none,
         venue := some { id := 9, name := none, lat := some 1, lon := some 2,
                         logo := none } }]
      none none (some "")
      = [{ id := 7, show_name := none, date := some usPerDay, link := none,
           img := none,
           venue := some { id := 9, name := none, lat := some 1, lon := some 2,
                           logo := none } }] := by
  rw [(venue_name_empty_means_no_filter _ none none 10 0).1]
  decide

/-- C3 (code defect): `models.py` declares no `logo` column on `Venue`, so
the `e.venue.logo` read in `to_geojson` raises `AttributeError` for any
event passing the coordinate guard — the projection cannot succeed for
exactly the events the claim covers. -/
theorem to_geojson_logo_read_raises :
    pyGetattr venueDeclaredAttrs "logo" = .error "AttributeError: logo" ∧
    hasCoords (evAt 10 5 0 vClub) = true ∧
    to_geojsonChecked [evAt 10 5 0 vClub] = .error "AttributeError: logo" :=
  ⟨rfl, rfl, rfl⟩

/-- C8 (code defect): `get_venues` reads `v.logo`, which `models.py` does
not declare, so the listing raises `AttributeError` for any nonempty venue
table — including a venue with `NULL` latitude — and only the empty table
succeeds. -/
theorem get_venues_logo_read_raises :
    get_venues ([] : List Venue) = .ok [] ∧
    get_venues [vNoLat] = .error "AttributeError: logo" ∧
    get_venues [vClub] = .error "AttributeError: logo" :=
  ⟨rfl, rfl, rfl⟩

/-- C4 counterexample: with `date_from` given and `date_to` omitted, the
code silently adds `date_to = ` end of `date_from`'s day, so an event five
days later matches the claim's predicted set (`date ≥ date_from`, no upper
bound) but not the code's query. -/
theorem filter_and_composition_counterexample :
    specC4MatchSet [evAt 10 5 0 vClub] (some 0) none none = [evAt 10 5 0 vClub] ∧
    filteredQuery [evAt 10 5 0 vClub] (some 0) none none = [] ∧
    filteredQuery [evAt 10 5 0 vClub] (some 0) none none
      ≠ specC4MatchSet [evAt 10 5 0 vClub] (some 0) none none := by
  refine ⟨by decide, by decide, by decide⟩

/-- C4 amended: membership in the pre-pagination result is the conjunction
of membership in the individually-filtered sets, where the upper date bound
is the effective one (`date_to`, defaulted to the end of `date_from`'s day
when `date_from` is given without `date_to`), and the venue-name condition
is the case-insensitive SQL LIKE match of `%venue_name%` with unescaped
wildcards, skipped when `venue_name` is omitted or empty. -/
theorem filter_and_composition (db : List Event) (df dt : Option Nat)
    (vn : Option String) (e : Event) :
    e ∈ filteredQuery db df dt vn ↔
      e ∈ (match df with
            | some x => (joinVenue db).filter (dateFromMatch x)
            | none => joinVenue db) ∧
      e ∈ (match effectiveDateTo df dt with
            | some x => (joinVenue db).filter (dateToMatch x)
            | none => joinVenue db) ∧
      e ∈ (match vn with
            | some s =>
              if s = "" then joinVenue db
              else (joinVenue db).filter (venueNameMatch s)
            | none => joinVenue db) := by
  rcases df with _ | x <;> rcases dt with _ | y <;> rcases vn with _ | s <;>
    simp only [filteredQuery, effectiveDateTo, List.mem_filter] <;>
    first
      | tauto
      | (by_cases hs : s = "" <;> simp only [hs, if_true, if_false, if_pos,
          if_neg, List.mem_filter, ne_eq, not_false_iff] <;> tauto)

/-- Witness for C4 (amended) at a venue-name pattern containing the `_`
wildcard: the event is in the result exactly because it is in all three
individually-filtered sets. -/
theorem filter_and_composition_witness :
    evAt 10 5 43200000000 vClub ∈
      filteredQuery [evAt 10 5 43200000000 vClub] (some (5 * usPerDay)) none
        (some "h_ c") := by
  rw [filter_and_composition]
  refine ⟨by decide, by decide, by decide⟩

/-- Twenty-one events on day 1, all at a venue with coordinates. -/
def db21 : List Event := (List.range 21).map (fun i : Nat => evAt (i : Int) 1 i vClub)

/-- C6 counterexample: no event today and 21 events in the 3-day window;
the today endpoint (no limit) returns 21 features while the filtered-events
operation for the same window returns at most `limit ≤ 20` of them, so the
outputs differ at the default limit 10 and at the maximum limit 20. -/
theorem today_vs_filtered_counterexample :
    fetchRange db21 0 (usPerDay - 1) = [] ∧
    (∃ e ∈ joinVenue db21, ∃ d, e.date = some d ∧
      usPerDay - 1 < d ∧ d ≤ 3 * usPerDay) ∧
    (read_today_events db21 0).features.length = 21 ∧
    read_today_events db21 0
      ≠ read_filtered_events db21 (some 0) (some (3 * usPerDay)) none 10 0 ∧
    read_today_events db21 0
      ≠ read_filtered_events db21 (some 0) (some (3 * usPerDay)) none 20 0 := by
  refine ⟨by decide, ⟨evAt 0 1 0 vClub, by decide, 1 * usPerDay + 0,
    by decide, by decide, by decide⟩, by decide, by decide, by decide⟩

/-- C6 amended: when the today fetch is empty the endpoint serves exactly
the 3-day window `[start, start + 3 days]`, and its output equals the
filtered-events output for `date_from = start`, `date_to = start + 3 days`
(offset 0) whenever the window's match count is within the limit; the
output is non-empty whenever some matching event passes the coordinate
guard. -/
theorem today_fallback_refines_filtered (db : List Event) (today L : Nat)
    (h1 : fetchRange db (today * usPerDay) (today * usPerDay + (usPerDay - 1)) = [])
    (h2 : (filteredQuery db (some (today * usPerDay))
        (some (today * usPerDay + 3 * usPerDay)) none).length ≤ L) :
    read_today_events db today
      = read_filtered_events db (some (today * usPerDay))
          (some (today * usPerDay + 3 * usPerDay)) none L 0 ∧
    ((∃ e ∈ fetchRange db (today * usPerDay) (today * usPerDay + 3 * usPerDay),
        hasCoords e) →
      (read_today_events db today).features ≠ []) := by
  have hq := read_today_query_fallback h1
  constructor
  · show to_geojson (read_today_query db today) = to_geojson _
    rw [hq, fetchRange_eq_filteredQuery, List.drop_zero, List.take_of_length_le h2]
  · rintro ⟨e, he, hc⟩
    show (to_geojson (read_today_query db today)).features ≠ []
    rw [hq]
    exact to_geojson_ne_nil he hc

/-- Witness for C6 (amended): a single event one day out, default limit. -/
theorem today_fallback_refines_filtered_witness :
    read_today_events [evAt 30 1 0 vClub] 0
      = read_filtered_events [evAt 30 1 0 vClub] (some 0) (some (3 * usPerDay))
          none 10 0 ∧
    (read_today_events [evAt 30 1 0 vClub] 0).features ≠ [] := by
  have h := today_fallback_refines_filtered [evAt 30 1 0 vClub] 0 10
    (by decide) (by decide)
  exact ⟨by simpa using h.1, h.2 ⟨evAt 30 1 0 vClub, by decide, by decide⟩⟩

end Stagehop
